import Mathlib

/-!
Shallow embedding of `src/streamlit0102.py` (GEE-MAP-0102): a Streamlit page
that fetches a median satellite composite from Earth Engine, renders it on a
folium map with a drawing tool, and tabulates the vertices of the last drawn
geometry.  Numeric coordinates are modelled as rationals (the Python floats
carry no arithmetic here beyond listing and averaging); remote calls are
modelled as `Except`-valued inputs so that the script's own control flow over
their success or failure is explicit.
-/

namespace GeeMap

/-- A longitude/latitude pair, in the `(lon, lat)` order GeoJSON uses. -/
abbrev Point2 := ℚ × ℚ

/-- The raw GeoJSON-style coordinate structure of a drawn geometry:
arbitrarily nested lists of numbers, exactly as `drawing_data["geometry"]["coordinates"]`
arrives from the folium Draw plugin. -/
inductive Coord where
  | num (q : ℚ)
  | arr (xs : List Coord)

/-- A drawn geometry as delivered by the map widget: a type tag string and the
raw coordinate structure (source lines 104–105). -/
structure DrawnGeometry where
  geomType : String
  coordinates : Coord

/-- A GeoJSON position `[lon, lat]` inside the coordinate structure. -/
def posC (p : Point2) : Coord := .arr [.num p.1, .num p.2]

/-- Python `coords[0]`: the first element of a list, `IndexError` (here `none`)
on a non-list or empty list. -/
def pyIndex0 : Coord → Option Coord
  | .arr (x :: _) => some x
  | _ => none

/-- One row of `pd.DataFrame(data, columns=["Longitude", "Latitude"])`: a row
must be a two-element numeric list, anything else makes the column count
mismatch. -/
def asRow2 : Coord → Option Point2
  | .arr [.num a, .num b] => some (a, b)
  | _ => none

/-- All rows of the data, in order, provided every one is a two-element
numeric list. -/
def rowsOf : List Coord → Option (List Point2)
  | [] => some []
  | r :: rs =>
    match asRow2 r, rowsOf rs with
    | some p, some ps => some (p :: ps)
    | _, _ => none

/-- `pd.DataFrame(data, columns=["Longitude", "Latitude"])` (source line 112):
succeeds when `data` is a list whose every element is a two-element numeric
list, yielding the rows in order; otherwise pandas raises (ragged NaN-padding
of short rows is not modelled, no claim touches it). -/
def dataFrame2 (data : Coord) : Option (List Point2) :=
  match data with
  | .arr rows => rowsOf rows
  | _ => none

mutual

/-- Python `repr` of the nested coordinate lists, as interpolated into the
f-string on source line 118.  Numeric formatting is abstracted to the
rational's canonical string. -/
def pyRepr : Coord → String
  | .num q => toString q
  | .arr xs => "[" ++ String.intercalate ", " (pyReprList xs) ++ "]"

def pyReprList : List Coord → List String
  | [] => []
  | x :: xs => pyRepr x :: pyReprList xs

end

/-- The f-string of source line 118. -/
def snippetOf (d : DrawnGeometry) : String :=
  "roi = ee.Geometry." ++ d.geomType ++ "(" ++ pyRepr d.coordinates ++ ")"

/-- What the coordinate panel renders for one drawn geometry. -/
structure CoordPanelOut where
  table : Option (List Point2)
  snippet : String
  metadataShown : Bool

/-- Source lines 104–126: the processing of one drawn geometry.  The table
column runs first (lines 110–114); if pandas raises there the script stops
with that exception and neither the snippet nor the metadata renders, hence
the `Except`. -/
def processDrawing (d : DrawnGeometry) : Except String CoordPanelOut :=
  if d.geomType ∈ ["Polygon", "MultiPolygon"] then
    match pyIndex0 d.coordinates with
    | none => .error "IndexError: list index out of range"
    | some c0 =>
      match dataFrame2 c0 with
      | none => .error "ValueError: column count mismatch"
      | some rows =>
        .ok { table := some rows, snippet := snippetOf d, metadataShown := true }
  else
    .ok { table := none, snippet := snippetOf d, metadataShown := true }

/-- The value `st_folium` returns (source line 98), as far as the script reads
it: possibly a `last_active_drawing`. -/
structure MapOut where
  last_active_drawing : Option DrawnGeometry

/-- What the whole coordinate section (source lines 100–128) shows. -/
structure CoordPageOut where
  idlePrompt : Bool
  panel : Option CoordPanelOut

/-- Source lines 102–128: if `map_output` is falsy or has no
`last_active_drawing`, the idle prompt shows; otherwise the drawing is
processed. -/
def coordSection (mo : Option MapOut) : Except String CoordPageOut :=
  match mo with
  | none => .ok { idlePrompt := true, panel := none }
  | some m =>
    match m.last_active_drawing with
    | none => .ok { idlePrompt := true, panel := none }
    | some d => (processDrawing d).map fun p => { idlePrompt := false, panel := some p }

/-- A Polygon geometry built from an outer ring of positions plus any further
(hole) rings, matching the GeoJSON layout the Draw plugin emits. -/
def polyGeom (outer : List Point2) (holes : List Coord) : DrawnGeometry :=
  { geomType := "Polygon", coordinates := .arr (.arr (outer.map posC) :: holes) }

/-- The table the coordinate panel would display for a geometry, `none` when
no table renders (wrong type or pandas failure). -/
def tableOf (d : DrawnGeometry) : Option (List Point2) :=
  match processDrawing d with
  | .ok p => p.table
  | .error _ => none

/-- Modelled from the spec: the repository's other coordinate-extractor
variants (not present under `src/`) also compute a centroid, "the mean
latitude and mean longitude", as the arithmetic mean of each column of the
extracted table.  Rows are `(lon, lat)` pairs, so the centroid here is
`(mean longitude, mean latitude)`. -/
def centroid (rows : List Point2) : ℚ × ℚ :=
  ((rows.map Prod.fst).sum / rows.length, (rows.map Prod.snd).sum / rows.length)

lemma rowsOf_map_posC (l : List Point2) :
    rowsOf (l.map posC) = some l := by
  induction l with
  | nil => rfl
  | cons p tl ih =>
    simp [rowsOf, posC, asRow2, ih]

lemma tableOf_polyGeom (outer : List Point2) (holes : List Coord) :
    tableOf (polyGeom outer holes) = some outer := by
  simp [tableOf, processDrawing, polyGeom, pyIndex0, dataFrame2, rowsOf_map_posC]

/-! ## Imagery fetch (source lines 30–91) -/

/-- The two choices of the sidebar's Satellite selectbox (source line 33). -/
inductive Satellite where
  | sentinel2
  | landsat8
deriving DecidableEq

/-- The two choices of the Visualization radio (source line 43). -/
inductive VizMode where
  | natural
  | falseColor
deriving DecidableEq

/-- The selectbox label of a satellite. -/
def satName : Satellite → String
  | .sentinel2 => "Sentinel-2"
  | .landsat8 => "Landsat-8"

/-- The radio label of a visualization mode. -/
def modeName : VizMode → String
  | .natural => "Natural Color"
  | .falseColor => "False Color (Infrared)"

/-- Source lines 57–62: the collection identifier of each satellite. -/
def col_id : Satellite → String
  | .sentinel2 => "COPERNICUS/S2_SR_HARMONIZED"
  | .landsat8 => "LANDSAT/LC08/C02/T1_L2"

/-- Source lines 60 and 64: the band triple per satellite and mode. -/
def viz_bands : Satellite → VizMode → List String
  | .sentinel2, .natural => ["B4", "B3", "B2"]
  | .sentinel2, .falseColor => ["B8", "B4", "B3"]
  | .landsat8, .natural => ["B4", "B3", "B2"]
  | .landsat8, .falseColor => ["B5", "B4", "B3"]

/-- Source line 70: the cloud-cover property each platform is sorted by
(ee `sort` is ascending by default). -/
def cloudProp : Satellite → String
  | .sentinel2 => "CLOUDY_PIXEL_PERCENTAGE"
  | .landsat8 => "CLOUD_COVER"

/-- The dict of source lines 75–80. -/
structure VisParams where
  bands : List String
  min : ℚ
  max : ℚ
  gamma : ℚ
deriving DecidableEq

/-- Source lines 75–80: the visualization parameters sent with `getMapId`. -/
def vis_params (sat : Satellite) (mode : VizMode) : VisParams :=
  { bands := viz_bands sat mode, min := 0, max := 3000, gamma := 1.4 }

/-- A region an Earth Engine call can be given.  `defaultROI` is the
synthetic region of source line 55,
`ee.Geometry.Point([68.5, 22.0]).buffer(100000).bounds()`. -/
inductive Region where
  | defaultROI
  | drawn (g : DrawnGeometry)

/-- One operation applied to the image collection, in order
(source lines 67–70). -/
inductive CollOp where
  | filterBounds (region : Region)
  | filterDate (startD endD : String)
  | sortAsc (key : String)

/-- How the composite image is built from the filtered collection. -/
inductive ReduceKind where
  | median
deriving DecidableEq

/-- The composite actually handed to `getMapId` (source lines 73–82). -/
structure Composite where
  reducer : ReduceKind
  clip : Option Region
  vis : VisParams

/-- A folium tile layer added to the map (source lines 83–89). -/
structure TileLayer where
  name : String
  url : String

/-- Everything the `run_basemap` branch (source lines 53–91) produces. -/
structure FetchResult where
  collection : String
  ops : List CollOp
  composite : Option Composite
  warnings : List String
  tileLayers : List TileLayer

/-- Source lines 53–91, the imagery fetch as the script runs it.  The two
remote calls — `img_col.size().getInfo()` (line 72) and `getMapId` (line 82) —
are inputs whose failure is an `Except.error`; the script has no handler
around this block, so a remote failure propagates as the `Except.error` of
the result.  `drawnROI` is the last drawn geometry held by the widget, if
any: the script never reads it here, the collection is always filtered to
the synthetic default region and the composite is never clipped. -/
def imageryFetchE (sat : Satellite) (startD endD : String) (mode : VizMode)
    (drawnROI : Option DrawnGeometry)
    (sizeCall : Except String Nat) (mapIdCall : Except String String) :
    Except String FetchResult :=
  let cid := col_id sat
  let ops : List CollOp :=
    [.filterBounds .defaultROI, .filterDate startD endD, .sortAsc (cloudProp sat)]
  match sizeCall with
  | .error e => .error e
  | .ok n =>
    if n > 0 then
      match mapIdCall with
      | .error e => .error e
      | .ok url =>
        .ok { collection := cid, ops := ops,
              composite := some { reducer := .median, clip := none,
                                  vis := vis_params sat mode },
              warnings := [],
              tileLayers := [{ name := satName sat ++ " " ++ modeName mode,
                               url := url }] }
    else
      .ok { collection := cid, ops := ops, composite := none,
            warnings := ["No images found for this date range/location."],
            tileLayers := [] }

/-- What `initialize_ee` (source lines 15–28) produces: a success flag and
the page error it showed, if any. -/
structure InitOut where
  ok : Bool
  errorMsg : Option String
deriving DecidableEq

/-- Source lines 15–28: the one `try/except` of the script.  `credsAndInit`
stands for the credential construction plus `ee.Initialize`; any exception in
them is caught broadly and shown as `st.error`. -/
def init_ee (secretsPresent : Bool) (credsAndInit : Except String Unit) : InitOut :=
  if !secretsPresent then
    { ok := false, errorMsg := some "Secrets not found in .streamlit/secrets.toml" }
  else
    match credsAndInit with
    | .ok _ => { ok := true, errorMsg := none }
    | .error e => { ok := false, errorMsg := some ("Init Error: " ++ e) }

/-! ## Concrete demo inputs -/

/-- A closed rectangle-ish ring of four vertices. -/
def demoRing : List Point2 := [(0, 0), (4, 0), (4, 2), (0, 0)]

/-- A drawn Polygon over `demoRing`. -/
def demoDrawn : DrawnGeometry := polyGeom demoRing []

/-- A MultiPolygon of one polygon with one ring (`demoRing`): its
`coordinates` nest one level deeper than a Polygon's. -/
def demoMultiPolygon : DrawnGeometry :=
  { geomType := "MultiPolygon", coordinates := .arr [.arr [.arr (demoRing.map posC)]] }

/-- A LineString of two vertices, as the Draw toolbar's polyline tool emits. -/
def demoLineString : DrawnGeometry :=
  { geomType := "LineString", coordinates := .arr [posC (0, 0), posC (1, 2)] }

/-! ## Claim theorems -/

/-- C1: for a drawn Polygon with a nonempty outer ring, the centroid of the
extracted table is the pair of column means (mean longitude, mean latitude),
and reversing the ring's winding direction leaves the centroid unchanged. -/
theorem centroid_mean_and_winding_invariant (outer : List Point2)
    (holes holes' : List Coord) (h : outer ≠ []) :
    (tableOf (polyGeom outer holes)).map centroid
        = some ((outer.map Prod.fst).sum / outer.length,
                (outer.map Prod.snd).sum / outer.length)
    ∧ (tableOf (polyGeom outer.reverse holes')).map centroid
        = (tableOf (polyGeom outer holes)).map centroid := by
  constructor
  · rw [tableOf_polyGeom]
    rfl
  · rw [tableOf_polyGeom, tableOf_polyGeom]
    simp [centroid, List.sum_reverse]

/-- Witness for C1 at the concrete ring `demoRing`. -/
theorem centroid_mean_and_winding_invariant_witness :
    (tableOf (polyGeom demoRing [])).map centroid
        = some ((demoRing.map Prod.fst).sum / demoRing.length,
                (demoRing.map Prod.snd).sum / demoRing.length)
    ∧ (tableOf (polyGeom demoRing.reverse [])).map centroid
        = (tableOf (polyGeom demoRing [])).map centroid :=
  centroid_mean_and_winding_invariant demoRing [] [] (by decide)

/-- C2 counterexample: with a drawn region of interest supplied, the fetch
still filters the collection to the synthetic default region (which is not
the drawn region) and the composite carries no clip. -/
theorem fetch_ignores_drawn_roi :
    (imageryFetchE Satellite.sentinel2 "2024-01-01" "2024-12-31" VizMode.natural
        (some demoDrawn) (Except.ok 5) (Except.ok "tiles")).map
        (fun r => (r.ops.head?, r.composite.map Composite.clip))
      = Except.ok (some (CollOp.filterBounds Region.defaultROI), some none)
    ∧ Region.defaultROI ≠ Region.drawn demoDrawn := by
  refine ⟨rfl, fun h => ?_⟩
  exact Region.noConfusion h

/-- C2 amended: every successful fetch filters to the synthetic default
region (never the drawn one), filters to the date window, sorts ascending by
the platform's cloud metric, and any composite built is a median reduce with
no clip and the chosen visualization parameters. -/
theorem fetch_pipeline_fixed (sat : Satellite) (sd ed : String) (mode : VizMode)
    (roi : Option DrawnGeometry) (sizeCall : Except String Nat)
    (mapIdCall : Except String String) (r : FetchResult)
    (h : imageryFetchE sat sd ed mode roi sizeCall mapIdCall = Except.ok r) :
    r.collection = col_id sat
    ∧ r.ops = [CollOp.filterBounds Region.defaultROI, CollOp.filterDate sd ed,
               CollOp.sortAsc (cloudProp sat)]
    ∧ (r.composite = none
       ∨ r.composite = some { reducer := .median, clip := none,
                              vis := vis_params sat mode }) := by
  cases sizeCall with
  | error e => exact Except.noConfusion h
  | ok n =>
    simp only [imageryFetchE] at h
    by_cases hn : n > 0
    · rw [if_pos hn] at h
      cases mapIdCall with
      | error e => exact Except.noConfusion h
      | ok url =>
        injection h with h
        subst h
        exact ⟨rfl, rfl, Or.inr rfl⟩
    · rw [if_neg hn] at h
      injection h with h
      subst h
      exact ⟨rfl, rfl, Or.inl rfl⟩

/-- Witness for the amended C2 at a concrete successful fetch. -/
theorem fetch_pipeline_fixed_witness :
    ({ collection := "COPERNICUS/S2_SR_HARMONIZED",
       ops := [CollOp.filterBounds Region.defaultROI,
               CollOp.filterDate "2024-01-01" "2024-12-31",
               CollOp.sortAsc "CLOUDY_PIXEL_PERCENTAGE"],
       composite := some { reducer := .median, clip := none,
                           vis := { bands := ["B4", "B3", "B2"], min := 0,
                                    max := 3000, gamma := 1.4 } },
       warnings := [],
       tileLayers := [{ name := "Sentinel-2 Natural Color", url := "tiles" }] }
      : FetchResult).collection = col_id Satellite.sentinel2
    ∧ ({ collection := "COPERNICUS/S2_SR_HARMONIZED",
         ops := [CollOp.filterBounds Region.defaultROI,
                 CollOp.filterDate "2024-01-01" "2024-12-31",
                 CollOp.sortAsc "CLOUDY_PIXEL_PERCENTAGE"],
         composite := some { reducer := .median, clip := none,
                             vis := { bands := ["B4", "B3", "B2"], min := 0,
                                      max := 3000, gamma := 1.4 } },
         warnings := [],
         tileLayers := [{ name := "Sentinel-2 Natural Color", url := "tiles" }] }
        : FetchResult).ops
        = [CollOp.filterBounds Region.defaultROI,
           CollOp.filterDate "2024-01-01" "2024-12-31",
           CollOp.sortAsc (cloudProp Satellite.sentinel2)]
    ∧ (({ collection := "COPERNICUS/S2_SR_HARMONIZED",
          ops := [CollOp.filterBounds Region.defaultROI,
                  CollOp.filterDate "2024-01-01" "2024-12-31",
                  CollOp.sortAsc "CLOUDY_PIXEL_PERCENTAGE"],
          composite := some { reducer := .median, clip := none,
                              vis := { bands := ["B4", "B3", "B2"], min := 0,
                                       max := 3000, gamma := 1.4 } },
          warnings := [],
          tileLayers := [{ name := "Sentinel-2 Natural Color", url := "tiles" }] }
         : FetchResult).composite = none
       ∨ ({ collection := "COPERNICUS/S2_SR_HARMONIZED",
            ops := [CollOp.filterBounds Region.defaultROI,
                    CollOp.filterDate "2024-01-01" "2024-12-31",
                    CollOp.sortAsc "CLOUDY_PIXEL_PERCENTAGE"],
            composite := some { reducer := .median, clip := none,
                                vis := { bands := ["B4", "B3", "B2"], min := 0,
                                         max := 3000, gamma := 1.4 } },
            warnings := [],
            tileLayers := [{ name := "Sentinel-2 Natural Color", url := "tiles" }] }
           : FetchResult).composite
           = some { reducer := .median, clip := none,
                    vis := vis_params Satellite.sentinel2 VizMode.natural }) :=
  fetch_pipeline_fixed Satellite.sentinel2 "2024-01-01" "2024-12-31"
    VizMode.natural none (Except.ok 5) (Except.ok "tiles") _ rfl

/-- C3: evaluating the coordinate processing at a MultiPolygon of one
polygon with one four-vertex ring.  `coords[0]` is the first polygon — a
list of rings, not of positions — so the DataFrame construction fails on
the column count instead of tabulating the first ring's vertex pairs, and
no table is displayed. -/
theorem multipolygon_table_fails :
    processDrawing demoMultiPolygon
        = Except.error "ValueError: column count mismatch"
    ∧ tableOf demoMultiPolygon = none := ⟨rfl, rfl⟩

/-- C4: for a Polygon whose outer ring has at least three vertices (any hole
rings present or not), the extracted table is exactly the outer ring's
(longitude, latitude) pairs in input order — in particular it has exactly
`outer.length` rows and its i-th row is the i-th input pair. -/
theorem polygon_table_is_outer_ring (outer : List Point2) (holes : List Coord)
    (h : 3 ≤ outer.length) :
    tableOf (polyGeom outer holes) = some outer :=
  tableOf_polyGeom outer holes

/-- Witness for C4 at the concrete four-vertex ring `demoRing`. -/
theorem polygon_table_is_outer_ring_witness :
    tableOf (polyGeom demoRing []) = some demoRing :=
  polygon_table_is_outer_ring demoRing [] (by decide)

/-- C5: the satellite choice fixes the collection identifier and the band
triples by the two-entry lookup, and the (collection, bands) pair any fetch
sends is always one of the four rows of that lookup — a band triple is never
paired with the other satellite's collection. -/
theorem satellite_lookup_fixed :
    col_id Satellite.sentinel2 = "COPERNICUS/S2_SR_HARMONIZED"
    ∧ col_id Satellite.landsat8 = "LANDSAT/LC08/C02/T1_L2"
    ∧ viz_bands Satellite.sentinel2 VizMode.natural = ["B4", "B3", "B2"]
    ∧ viz_bands Satellite.sentinel2 VizMode.falseColor = ["B8", "B4", "B3"]
    ∧ viz_bands Satellite.landsat8 VizMode.natural = ["B4", "B3", "B2"]
    ∧ viz_bands Satellite.landsat8 VizMode.falseColor = ["B5", "B4", "B3"]
    ∧ ∀ sat mode, (col_id sat, (vis_params sat mode).bands)
        ∈ [("COPERNICUS/S2_SR_HARMONIZED", ["B4", "B3", "B2"]),
           ("COPERNICUS/S2_SR_HARMONIZED", ["B8", "B4", "B3"]),
           ("LANDSAT/LC08/C02/T1_L2", ["B4", "B3", "B2"]),
           ("LANDSAT/LC08/C02/T1_L2", ["B5", "B4", "B3"])] := by
  refine ⟨rfl, rfl, rfl, rfl, rfl, rfl, ?_⟩
  intro sat mode
  cases sat <;> cases mode <;> simp [col_id, vis_params, viz_bands]

/-- C6: when the filtered collection is empty, the fetch returns normally
(no crash, whatever the tile call would have done), adds no tile layer,
emits exactly the warning, and queried only the chosen collection — no
retry, no fallback. -/
theorem empty_collection_warns (sat : Satellite) (sd ed : String)
    (mode : VizMode) (roi : Option DrawnGeometry)
    (mapIdCall : Except String String) :
    imageryFetchE sat sd ed mode roi (Except.ok 0) mapIdCall
      = Except.ok { collection := col_id sat,
                    ops := [CollOp.filterBounds Region.defaultROI,
                            CollOp.filterDate sd ed,
                            CollOp.sortAsc (cloudProp sat)],
                    composite := none,
                    warnings := ["No images found for this date range/location."],
                    tileLayers := [] } := rfl

/-- C7 counterexample: a remote failure in the size check, and one in the
tile-URL request, each propagate out of the fetch block unhandled — the
script converts neither into a rendered message. -/
theorem fetch_failure_propagates :
    imageryFetchE Satellite.sentinel2 "2024-01-01" "2024-12-31" VizMode.natural
        none (Except.error "EEException: query failed") (Except.ok "tiles")
      = Except.error "EEException: query failed"
    ∧ imageryFetchE Satellite.sentinel2 "2024-01-01" "2024-12-31" VizMode.natural
        none (Except.ok 5) (Except.error "EEException: tile request failed")
      = Except.error "EEException: tile request failed" := ⟨rfl, rfl⟩

/-- C7 amended: only `initialize_ee` catches broadly — any failure there
yields a page error message and `False` — while a failure of either remote
call inside the imagery fetch propagates out of the script's own code
uncaught. -/
theorem remote_failure_handling :
    (∀ e, init_ee true (Except.error e)
        = { ok := false, errorMsg := some ("Init Error: " ++ e) })
    ∧ (∀ sat sd ed mode roi e mapIdCall,
        imageryFetchE sat sd ed mode roi (Except.error e) mapIdCall
          = Except.error e)
    ∧ (∀ sat sd ed mode roi n e, 0 < n →
        imageryFetchE sat sd ed mode roi (Except.ok n) (Except.error e)
          = Except.error e) := by
  refine ⟨fun e => rfl, fun sat sd ed mode roi e mc => rfl, ?_⟩
  intro sat sd ed mode roi n e hn
  simp [imageryFetchE, hn]

/-- Witness for the amended C7 at a concrete failing tile request. -/
theorem remote_failure_handling_witness :
    imageryFetchE Satellite.sentinel2 "2024-01-01" "2024-12-31" VizMode.natural
        none (Except.ok 5) (Except.error "boom")
      = Except.error "boom" :=
  remote_failure_handling.2.2 Satellite.sentinel2 "2024-01-01" "2024-12-31"
    VizMode.natural none 5 "boom" (by decide)

/-- C8: with no drawn geometry — `map_output` falsy or carrying no
`last_active_drawing` — the coordinate section shows the idle prompt,
raises nothing, and renders no table. -/
theorem no_drawing_shows_idle_prompt (mo : Option MapOut)
    (h : mo = none ∨ mo = some { last_active_drawing := none }) :
    coordSection mo = Except.ok { idlePrompt := true, panel := none } := by
  rcases h with rfl | rfl <;> rfl

/-- Witness for C8 at a falsy `map_output`. -/
theorem no_drawing_shows_idle_prompt_witness :
    coordSection none = Except.ok { idlePrompt := true, panel := none } :=
  no_drawing_shows_idle_prompt none (Or.inl rfl)

/-- C9: the stretch parameters are the same for every satellite and mode —
min 0, max 3000, gamma 1.4 — and substituting one pair's band triple into
another pair's parameters yields exactly the latter's parameters, so only
the band triple varies. -/
theorem stretch_params_constant (s s' : Satellite) (m m' : VizMode) :
    (vis_params s m).min = 0
    ∧ (vis_params s m).max = 3000
    ∧ (vis_params s m).gamma = 1.4
    ∧ { vis_params s m with bands := (vis_params s' m').bands }
        = vis_params s' m' :=
  ⟨rfl, rfl, rfl, rfl⟩

/-- C10: a drawn geometry that is neither Polygon nor MultiPolygon renders
no coordinate table, yet the code snippet built from the raw coordinate
structure and the session metadata still render, with no error. -/
theorem non_polygon_keeps_snippet (d : DrawnGeometry)
    (h : d.geomType ∉ (["Polygon", "MultiPolygon"] : List String)) :
    processDrawing d
      = Except.ok { table := none,
                    snippet := "roi = ee.Geometry." ++ d.geomType ++ "("
                                 ++ pyRepr d.coordinates ++ ")",
                    metadataShown := true } := by
  simp [processDrawing, h, snippetOf]

/-- Witness for C10 at a concrete LineString. -/
theorem non_polygon_keeps_snippet_witness :
    processDrawing demoLineString
      = Except.ok { table := none,
                    snippet := "roi = ee.Geometry." ++ demoLineString.geomType
                                 ++ "(" ++ pyRepr demoLineString.coordinates ++ ")",
                    metadataShown := true } :=
  non_polygon_keeps_snippet demoLineString (by decide)

end GeeMap
